import Mathlib

/- Verification of the logging facade in package logger (kingrain94/logger).

   The embedding follows the Go source file by file. Go machine integers are
   modelled as Int (the Environment enum is a Go int, zapcore.Level a Go int8;
   no arithmetic overflows occur in the source, only equality tests and a max,
   so Int is faithful). The external engine go.uber.org/zap is modelled only
   through the narrow interface the facade uses: the two preset config
   constructors, Config.Build, Logger.With, zap.IncreaseLevel and Sync. -/

namespace Logger

/-- Environment represents different deployment environments; in Go it is an
int-valued enum declared with iota. -/
abbrev Environment := Int

/-- Development environment constant (iota value 0). -/
def Development : Environment := 0

/-- Test environment constant (iota value 1). -/
def Test : Environment := 1

/-- Staging environment constant (iota value 2). -/
def Staging : Environment := 2

/-- Production environment constant (iota value 3). -/
def Production : Environment := 3

/-- Model of zapcore.DebugLevel from go.uber.org/zap/zapcore. -/
def DebugLevel : Int := -1

/-- Model of zapcore.InfoLevel, the zero value of zapcore.Level. -/
def InfoLevel : Int := 0

/-- Model of zapcore.WarnLevel. -/
def WarnLevel : Int := 1

/-- Model of zapcore.ErrorLevel. -/
def ErrorLevel : Int := 2

/-- Model of zapcore.FatalLevel. -/
def FatalLevel : Int := 5

/-- String returns the string representation of an environment, translated
from the switch in the method Environment.String of the source. -/
def Environment.String (e : Environment) : String :=
  if e = Development then "development"
  else if e = Test then "test"
  else if e = Staging then "staging"
  else if e = Production then "production"
  else "unknown"

/-- Config holds the logger configuration options, translated from the Go
struct Config with fields Environment, Level, OutputPaths and Encoding. -/
structure Config where
  Environment : Int
  Level : Int
  OutputPaths : List String
  Encoding : String
deriving Repr, DecidableEq

/-- DefaultConfig returns a default configuration based on environment,
translated from the source. The Go composite literal leaves Level at the
zero value of zapcore.Level (InfoLevel, 0) and Encoding at the empty
string, and the switch overwrites them only for the four named cases. -/
def DefaultConfig (env : Environment) : Config :=
  let config : Config :=
    { Environment := env, Level := 0, OutputPaths := ["stdout"], Encoding := "" }
  if env = Development then { config with Level := DebugLevel, Encoding := "console" }
  else if env = Test then
    { config with Level := ErrorLevel, Encoding := "json", OutputPaths := [] }
  else if env = Staging then { config with Level := InfoLevel, Encoding := "json" }
  else if env = Production then { config with Level := WarnLevel, Encoding := "json" }
  else config

/-- Model of zap.Config restricted to the fields the facade touches:
Level, Encoding and OutputPaths. -/
structure ZapConfig where
  Level : Int
  Encoding : String
  OutputPaths : List String
deriving Repr, DecidableEq

/-- Model of zap.NewDevelopmentConfig(): DebugLevel, console encoding,
output to stderr. -/
def NewDevelopmentConfig : ZapConfig :=
  { Level := DebugLevel, Encoding := "console", OutputPaths := ["stderr"] }

/-- Model of zap.NewProductionConfig(): InfoLevel, json encoding, output
to stderr. -/
def NewProductionConfig : ZapConfig :=
  { Level := InfoLevel, Encoding := "json", OutputPaths := ["stderr"] }

/-- Model of the zero value of zap.Config: empty encoding and no output
paths, as left by the uncovered default branch of the switch in Initialize. -/
def zeroZapConfig : ZapConfig :=
  { Level := 0, Encoding := "", OutputPaths := [] }

/-- Model of a built zap.Logger handle: the effective minimum level, the
encoding and output sinks it was built with, and the accumulated
structured context attached through With. -/
structure ZapLogger where
  Level : Int
  Encoding : String
  OutputPaths : List String
  Context : List (String × String)
deriving Repr, DecidableEq

/-- The encoder names registered by default in zap. -/
def registeredEncoders : List String := ["json", "console"]

/-- Model of zap.Config.Build: constructing an encoder fails when no encoder
is registered for the configured encoding name, in which case Build returns
a nil logger together with the error. Sink opening for the standard streams
is modelled as succeeding. -/
def zapBuild (c : ZapConfig) : Except String ZapLogger :=
  if c.Encoding ∈ registeredEncoders then
    Except.ok { Level := c.Level, Encoding := c.Encoding,
                OutputPaths := c.OutputPaths, Context := [] }
  else
    Except.error "no encoder registered"

/-- The process-wide mutable state of the facade: the package-level vars
logger, sugar and currentEnv of the source. The sugared logger wraps the
same underlying handle, so it is modelled by the same ZapLogger value. -/
structure LoggerState where
  logger : Option ZapLogger
  sugar : Option ZapLogger
  currentEnv : Environment
deriving Repr, DecidableEq

/-- The var block of the source: logger and sugar start nil and currentEnv
starts at Development, before init() runs. -/
def initialState : LoggerState :=
  { logger := none, sugar := none, currentEnv := Development }

/-- The zap.Config assembled inside Initialize before Build is called: the
switch on config.Environment picks a preset (or leaves the zero value when
no case matches), then Level and Encoding are overwritten from the Config,
and OutputPaths is overwritten only when the supplied list is nonempty. -/
def mkZapConfig (config : Config) : ZapConfig :=
  let zapConfig :=
    if config.Environment = Development then NewDevelopmentConfig
    else if config.Environment = Production ∨ config.Environment = Staging then
      NewProductionConfig
    else if config.Environment = Test then { NewProductionConfig with OutputPaths := [] }
    else zeroZapConfig
  let zapConfig := { zapConfig with Level := config.Level, Encoding := config.Encoding }
  if config.OutputPaths.length > 0 then { zapConfig with OutputPaths := config.OutputPaths }
  else zapConfig

/-- Initialize initializes the logger with the given configuration,
translated from the source. The Go statement assigns the Build result to
the package-level logger directly, so on a Build error the global logger
becomes nil while sugar and currentEnv keep their previous values; on
success all three globals are updated. Returns the error result paired
with the new state. -/
def Initialize (config : Config) (s : LoggerState) :
    Except String Unit × LoggerState :=
  match zapBuild (mkZapConfig config) with
  | Except.error e =>
      (Except.error ("failed to build logger: " ++ e), { s with logger := none })
  | Except.ok l =>
      (Except.ok (), { logger := some l, sugar := some l,
                       currentEnv := config.Environment })

/-- SetEnvironment sets the environment and reinitializes the logger. -/
def SetEnvironment (env : Environment) (s : LoggerState) :
    Except String Unit × LoggerState :=
  Initialize (DefaultConfig env) s

/-- Model of zap.IncreaseLevel composed with WithOptions: zapcore rejects an
attempt to lower the level (the core is kept unchanged), and otherwise wraps
the core with the stricter floor, so the effective minimum level becomes the
maximum of the old level and the requested one; the accumulated context is
untouched either way. -/
def IncreaseLevel (level : Int) (l : ZapLogger) : ZapLogger :=
  if l.Level ≤ level then { l with Level := level } else l

/-- SetLevel sets the log level dynamically, translated from the source:
when a logger is active it is replaced by logger.WithOptions of
zap.IncreaseLevel, and sugar is rederived from it; otherwise nothing
happens. -/
def SetLevel (level : Int) (s : LoggerState) : LoggerState :=
  match s.logger with
  | none => s
  | some l =>
      let l2 := IncreaseLevel level l
      { s with logger := some l2, sugar := some l2 }

/-- GetLogger returns the underlying zap logger. -/
def GetLogger (s : LoggerState) : Option ZapLogger := s.logger

/-- GetSugar returns the sugared logger. -/
def GetSugar (s : LoggerState) : Option ZapLogger := s.sugar

/-- Sync flushes any buffered log entries: when a logger is active its
flush result is returned, otherwise nil. The engine flush itself is
external, so it is passed in as a parameter. -/
def Sync (engineSync : ZapLogger → Except String Unit) (s : LoggerState) :
    Except String Unit :=
  match s.logger with
  | some l => engineSync l
  | none => Except.ok ()

/-- Result of a structured leveled-logging call through the facade: either
the call was forwarded to the active handle at the stated level, or no
handle was active and nothing happened. -/
inductive LogResult where
  | forwarded (level : Int) (msg : String) (fields : List (String × String))
  | noop
deriving Repr, DecidableEq

/-- Result of a printf-style leveled-logging call through the sugared
handle. -/
inductive FmtLogResult where
  | forwarded (level : Int) (template : String) (args : List String)
  | noop
deriving Repr, DecidableEq

/-- Shared body of the structured leveled-logging wrappers: the call is
forwarded exactly when the package-level logger is non-nil. -/
def logged (s : LoggerState) (level : Int) (msg : String)
    (fields : List (String × String)) : LogResult :=
  match s.logger with
  | some _ => LogResult.forwarded level msg fields
  | none => LogResult.noop

/-- Shared body of the printf-style wrappers: the call is forwarded exactly
when the package-level sugar is non-nil. -/
def sugaredLogged (s : LoggerState) (level : Int) (template : String)
    (args : List String) : FmtLogResult :=
  match s.sugar with
  | some _ => FmtLogResult.forwarded level template args
  | none => FmtLogResult.noop

/-- Debug logs a message at debug level. -/
def Debug (msg : String) (fields : List (String × String)) (s : LoggerState) :
    LogResult :=
  logged s DebugLevel msg fields

/-- Debugf logs a formatted message at debug level. -/
def Debugf (template : String) (args : List String) (s : LoggerState) :
    FmtLogResult :=
  sugaredLogged s DebugLevel template args

/-- Info logs a message at info level. -/
def Info (msg : String) (fields : List (String × String)) (s : LoggerState) :
    LogResult :=
  logged s InfoLevel msg fields

/-- Infof logs a formatted message at info level. -/
def Infof (template : String) (args : List String) (s : LoggerState) :
    FmtLogResult :=
  sugaredLogged s InfoLevel template args

/-- Warn logs a message at warn level. -/
def Warn (msg : String) (fields : List (String × String)) (s : LoggerState) :
    LogResult :=
  logged s WarnLevel msg fields

/-- Warnf logs a formatted message at warn level. -/
def Warnf (template : String) (args : List String) (s : LoggerState) :
    FmtLogResult :=
  sugaredLogged s WarnLevel template args

/-- Error logs a message at error level. -/
def Error (msg : String) (fields : List (String × String)) (s : LoggerState) :
    LogResult :=
  logged s ErrorLevel msg fields

/-- Errorf logs a formatted message at error level. -/
def Errorf (template : String) (args : List String) (s : LoggerState) :
    FmtLogResult :=
  sugaredLogged s ErrorLevel template args

/-- Fatal logs a message at fatal level; the process-ending side effect
lives inside the engine call, which is guarded by the same nil check as
the other wrappers, so with no active handle nothing is forwarded and the
process does not exit. -/
def Fatal (msg : String) (fields : List (String × String)) (s : LoggerState) :
    LogResult :=
  logged s FatalLevel msg fields

/-- Fatalf logs a formatted message at fatal level, guarded like Fatal. -/
def Fatalf (template : String) (args : List String) (s : LoggerState) :
    FmtLogResult :=
  sugaredLogged s FatalLevel template args

/-- Model of zap Logger.With: a child handle carrying the merged context. -/
def zapWith (fields : List (String × String)) (l : ZapLogger) : ZapLogger :=
  { l with Context := l.Context ++ fields }

/-- With creates a child logger with additional structured context, or
returns nil when no logger is active. -/
def With (fields : List (String × String)) (s : LoggerState) :
    Option ZapLogger :=
  match s.logger with
  | some l => some (zapWith fields l)
  | none => none

/-- WithFields is an alias for With. -/
def WithFields (fields : List (String × String)) (s : LoggerState) :
    Option ZapLogger :=
  With fields s

/-- Whether Initialize would succeed on this configuration; success depends
only on the configuration, not on the prior state. -/
def buildOk (config : Config) : Bool :=
  match zapBuild (mkZapConfig config) with
  | Except.ok _ => true
  | Except.error _ => false

/-- Boolean success of an Initialize result. -/
def exceptIsOk (r : Except String Unit) : Bool :=
  match r with
  | Except.ok _ => true
  | Except.error _ => false

/-- One facade operation of the reconfiguration API: Initialize with an
explicit Config, SetEnvironment, or SetLevel. -/
inductive Op where
  | initOp (cfg : Config)
  | setEnvOp (env : Environment)
  | setLevelOp (level : Int)
deriving Repr

/-- Apply one operation to the facade state, discarding the error result
as a caller that ignores returned errors would. -/
def applyOp (s : LoggerState) : Op → LoggerState
  | Op.initOp cfg => (Initialize cfg s).2
  | Op.setEnvOp env => (SetEnvironment env s).2
  | Op.setLevelOp level => SetLevel level s

/-- Run a sequence of facade operations from a starting state. -/
def run (s : LoggerState) (ops : List Op) : LoggerState :=
  ops.foldl applyOp s

/-- The environment of the configuration most recently successfully applied
along an operation sequence, starting from a given recorded environment: a
successful Initialize records its Environment field, a successful
SetEnvironment records its argument, failures and SetLevel record nothing. -/
def envStep (e : Environment) : Op → Environment
  | Op.initOp cfg => if buildOk cfg then cfg.Environment else e
  | Op.setEnvOp env => if buildOk (DefaultConfig env) then env else e
  | Op.setLevelOp _ => e

/-- Helper: DefaultConfig always records the requested environment in its
Environment field, whichever branch of the switch is taken. -/
theorem defaultConfig_environment (env : Environment) :
    (DefaultConfig env).Environment = env := by
  unfold DefaultConfig
  split <;> try rfl
  split <;> try rfl
  split <;> try rfl
  split <;> rfl

/-- C1: for every one of the four Environment values, DefaultConfig returns
exactly the level, encoding and output-path triple of the table: Development
gives Debug level, console encoding and output to stdout; Test gives Error
level, json encoding and an empty output list; Staging gives Info level,
json encoding and stdout; Production gives Warn level, json encoding and
stdout. -/
theorem c1_default_config_table :
    DefaultConfig Development =
      { Environment := Development, Level := DebugLevel,
        OutputPaths := ["stdout"], Encoding := "console" } ∧
    DefaultConfig Test =
      { Environment := Test, Level := ErrorLevel,
        OutputPaths := [], Encoding := "json" } ∧
    DefaultConfig Staging =
      { Environment := Staging, Level := InfoLevel,
        OutputPaths := ["stdout"], Encoding := "json" } ∧
    DefaultConfig Production =
      { Environment := Production, Level := WarnLevel,
        OutputPaths := ["stdout"], Encoding := "json" } := by
  decide

/-- C8: the four defined Environment values map to their human-readable
names under Environment.String, those four names are pairwise distinct (so
the name determines the value), and every other Environment value maps to
the name unknown. -/
theorem c8_environment_string_round_trip :
    Environment.String Development = "development" ∧
    Environment.String Test = "test" ∧
    Environment.String Staging = "staging" ∧
    Environment.String Production = "production" ∧
    (["development", "test", "staging", "production"] : List String).Nodup ∧
    (∀ e : Environment, e ≠ Development → e ≠ Test → e ≠ Staging →
      e ≠ Production → Environment.String e = "unknown") := by
  refine ⟨by decide, by decide, by decide, by decide, by decide, ?_⟩
  intro e h0 h1 h2 h3
  unfold Environment.String
  rw [if_neg h0, if_neg h1, if_neg h2, if_neg h3]

/-- C8 witness: the theorem applied at the out-of-range value 99. -/
theorem c8_environment_string_round_trip_witness :
    Environment.String 99 = "unknown" :=
  c8_environment_string_round_trip.2.2.2.2.2 99 (by decide) (by decide)
    (by decide) (by decide)

/-- C10: for every Environment value other than the four defined constants,
DefaultConfig returns a Config with that environment, output paths stdout,
empty encoding and the zero level value InfoLevel, because no switch case
matches. -/
theorem c10_default_config_out_of_range (e : Environment)
    (h0 : e ≠ Development) (h1 : e ≠ Test) (h2 : e ≠ Staging)
    (h3 : e ≠ Production) :
    DefaultConfig e =
      { Environment := e, Level := InfoLevel, OutputPaths := ["stdout"],
        Encoding := "" } := by
  unfold DefaultConfig
  rw [if_neg h0, if_neg h1, if_neg h2, if_neg h3]
  rfl

/-- C10 witness: the theorem applied at the out-of-range value 42. -/
theorem c10_default_config_out_of_range_witness :
    DefaultConfig 42 =
      { Environment := 42, Level := InfoLevel, OutputPaths := ["stdout"],
        Encoding := "" } :=
  c10_default_config_out_of_range 42 (by decide) (by decide) (by decide)
    (by decide)

/-- C2 is violated by the code: starting from a state with an active handle,
an Initialize whose configuration names an unregistered encoding returns an
error, yet the global logger is overwritten with the nil result of Build,
while sugar and currentEnv keep their old values. The claim requires the
whole prior handle to be left untouched. -/
theorem c2_failed_initialize_clobbers_handle :
    ((Initialize (DefaultConfig Development) initialState).2.logger.isSome
       = true) ∧
    (exceptIsOk (Initialize
        { Environment := Development, Level := InfoLevel,
          OutputPaths := ["stdout"], Encoding := "bogus" }
        (Initialize (DefaultConfig Development) initialState).2).1 = false) ∧
    ((Initialize
        { Environment := Development, Level := InfoLevel,
          OutputPaths := ["stdout"], Encoding := "bogus" }
        (Initialize (DefaultConfig Development) initialState).2).2.logger
       = none) ∧
    ((Initialize
        { Environment := Development, Level := InfoLevel,
          OutputPaths := ["stdout"], Encoding := "bogus" }
        (Initialize (DefaultConfig Development) initialState).2).2.sugar
       = (Initialize (DefaultConfig Development) initialState).2.sugar) ∧
    ((Initialize
        { Environment := Development, Level := InfoLevel,
          OutputPaths := ["stdout"], Encoding := "bogus" }
        (Initialize (DefaultConfig Development) initialState).2).2.currentEnv
       = Development) := by
  decide

/-- C3: for every configuration and prior state, when Initialize returns
success, GetLogger and GetSugar on the resulting state are both non-nil and
the recorded current environment equals the Environment field of the
configuration. -/
theorem c3_initialize_success (cfg : Config) (s : LoggerState)
    (h : exceptIsOk (Initialize cfg s).1 = true) :
    GetLogger (Initialize cfg s).2 ≠ none ∧
    GetSugar (Initialize cfg s).2 ≠ none ∧
    (Initialize cfg s).2.currentEnv = cfg.Environment := by
  rcases hb : zapBuild (mkZapConfig cfg) with e | l
  · have h1 : (Initialize cfg s).1
        = Except.error ("failed to build logger: " ++ e) := by
      simp [Initialize, hb]
    rw [h1] at h
    exact absurd h (by simp [exceptIsOk])
  · have h2 : (Initialize cfg s).2
        = { logger := some l, sugar := some l,
            currentEnv := cfg.Environment } := by
      simp [Initialize, hb]
    simp [GetLogger, GetSugar, h2]

/-- C3 witness: the theorem applied to DefaultConfig Development from the
uninitialized state. -/
theorem c3_initialize_success_witness :
    GetLogger (Initialize (DefaultConfig Development) initialState).2 ≠ none ∧
    GetSugar (Initialize (DefaultConfig Development) initialState).2 ≠ none ∧
    (Initialize (DefaultConfig Development) initialState).2.currentEnv
      = (DefaultConfig Development).Environment :=
  c3_initialize_success (DefaultConfig Development) initialState (by decide)

/-- C5: whenever no handle is active, every leveled-logging call in both
its structured and formatted form is a no-op, With and WithFields return
nil, GetLogger and GetSugar return nil, and Sync returns success, for every
engine flush function. -/
theorem c5_uninitialized_calls_are_noops (s : LoggerState)
    (engineSync : ZapLogger → Except String Unit)
    (msg template : String) (fields : List (String × String))
    (args : List String)
    (hl : s.logger = none) (hs : s.sugar = none) :
    Debug msg fields s = LogResult.noop ∧
    Info msg fields s = LogResult.noop ∧
    Warn msg fields s = LogResult.noop ∧
    Error msg fields s = LogResult.noop ∧
    Fatal msg fields s = LogResult.noop ∧
    Debugf template args s = FmtLogResult.noop ∧
    Infof template args s = FmtLogResult.noop ∧
    Warnf template args s = FmtLogResult.noop ∧
    Errorf template args s = FmtLogResult.noop ∧
    Fatalf template args s = FmtLogResult.noop ∧
    With fields s = none ∧
    WithFields fields s = none ∧
    GetLogger s = none ∧
    GetSugar s = none ∧
    Sync engineSync s = Except.ok () := by
  simp [Debug, Info, Warn, Error, Fatal, Debugf, Infof, Warnf, Errorf,
    Fatalf, logged, sugaredLogged, With, WithFields, GetLogger, GetSugar,
    Sync, hl, hs]

/-- C5 witness: the theorem applied at the uninitialized start state with
concrete message, fields and flush function. -/
theorem c5_uninitialized_calls_are_noops_witness :
    Debug "m" [("k", "v")] initialState = LogResult.noop ∧
    Info "m" [("k", "v")] initialState = LogResult.noop ∧
    Warn "m" [("k", "v")] initialState = LogResult.noop ∧
    Error "m" [("k", "v")] initialState = LogResult.noop ∧
    Fatal "m" [("k", "v")] initialState = LogResult.noop ∧
    Debugf "t" ["a"] initialState = FmtLogResult.noop ∧
    Infof "t" ["a"] initialState = FmtLogResult.noop ∧
    Warnf "t" ["a"] initialState = FmtLogResult.noop ∧
    Errorf "t" ["a"] initialState = FmtLogResult.noop ∧
    Fatalf "t" ["a"] initialState = FmtLogResult.noop ∧
    With [("k", "v")] initialState = none ∧
    WithFields [("k", "v")] initialState = none ∧
    GetLogger initialState = none ∧
    GetSugar initialState = none ∧
    Sync (fun _ => Except.ok ()) initialState = Except.ok () :=
  c5_uninitialized_calls_are_noops initialState (fun _ => Except.ok ())
    "m" "t" [("k", "v")] ["a"] rfl rfl

/-- C7: SetLevel is a no-op when no handle is active; when a handle is
active, the new handle has effective minimum level equal to the maximum of
its old level and the requested one, its accumulated context, encoding and
output paths are unchanged, sugar is rederived from the same handle, and
the recorded environment is unchanged. -/
theorem c7_set_level_raises_only (level : Int) (s : LoggerState) :
    (s.logger = none → SetLevel level s = s) ∧
    (∀ l, s.logger = some l →
      SetLevel level s =
        { s with
          logger := some { l with Level := max l.Level level },
          sugar := some { l with Level := max l.Level level } }) := by
  constructor
  · intro h
    simp [SetLevel, h]
  · intro l hl
    simp only [SetLevel, hl, IncreaseLevel]
    split
    · rename_i h
      rw [max_eq_right h]
    · rename_i h
      rw [max_eq_left (le_of_not_le h)]

/-- C7 witness: the theorem applied at a concrete active handle (raising
from Info to Error) and at the uninitialized state. -/
theorem c7_set_level_raises_only_witness :
    SetLevel ErrorLevel initialState = initialState ∧
    SetLevel ErrorLevel
      { logger := some { Level := InfoLevel, Encoding := "json",
                         OutputPaths := ["stdout"], Context := [("k", "v")] },
        sugar := some { Level := InfoLevel, Encoding := "json",
                        OutputPaths := ["stdout"], Context := [("k", "v")] },
        currentEnv := Staging } =
      { logger := some { Level := max InfoLevel ErrorLevel,
                         Encoding := "json", OutputPaths := ["stdout"],
                         Context := [("k", "v")] },
        sugar := some { Level := max InfoLevel ErrorLevel,
                        Encoding := "json", OutputPaths := ["stdout"],
                        Context := [("k", "v")] },
        currentEnv := Staging } :=
  ⟨(c7_set_level_raises_only ErrorLevel initialState).1 rfl,
   (c7_set_level_raises_only ErrorLevel _).2
     { Level := InfoLevel, Encoding := "json", OutputPaths := ["stdout"],
       Context := [("k", "v")] } rfl⟩

/-- C4 is violated by the code for the Development environment: an explicit
Initialize with an empty OutputPaths list succeeds, but the built engine
keeps the output paths of the zap development preset, stderr, rather than
writing to no destinations. -/
theorem c4_empty_outputs_counterexample :
    (exceptIsOk (Initialize
        { Environment := Development, Level := DebugLevel,
          OutputPaths := [], Encoding := "console" } initialState).1
      = true) ∧
    ((Initialize
        { Environment := Development, Level := DebugLevel,
          OutputPaths := [], Encoding := "console" }
        initialState).2.logger.map ZapLogger.OutputPaths
      = some ["stderr"]) ∧
    (["stderr"] : List String) ≠ [] := by
  decide

/-- C4 amended: a configuration with an empty OutputPaths list leaves the
base zap preset output paths in place, so the engine is built with stderr
as its destination for Development, Production and Staging, and with no
destinations for Test and for every environment outside the four defined
values. -/
theorem c4_empty_outputs_amended (cfg : Config) (h : cfg.OutputPaths = []) :
    (mkZapConfig cfg).OutputPaths =
      if cfg.Environment = Development ∨ cfg.Environment = Production ∨
          cfg.Environment = Staging then ["stderr"] else [] := by
  simp only [mkZapConfig, h, List.length_nil, gt_iff_lt, lt_self_iff_false,
    if_false]
  split_ifs with h1 h2 h3 <;>
    simp_all [NewDevelopmentConfig, NewProductionConfig, zeroZapConfig]

/-- C4 amended witness: the amended theorem applied to a Development
configuration with an empty output list, whose built destinations are
stderr. -/
theorem c4_empty_outputs_amended_witness :
    (mkZapConfig
      { Environment := Development, Level := DebugLevel,
        OutputPaths := [], Encoding := "console" }).OutputPaths
      = ["stderr"] := by
  rw [c4_empty_outputs_amended
    { Environment := Development, Level := DebugLevel,
      OutputPaths := [], Encoding := "console" } rfl]
  decide

/-- Helper: one facade operation updates the recorded environment exactly
as envStep describes. -/
theorem applyOp_currentEnv (s : LoggerState) (op : Op) :
    (applyOp s op).currentEnv = envStep s.currentEnv op := by
  cases op with
  | initOp cfg =>
      rcases hb : zapBuild (mkZapConfig cfg) with e | l
      · have h2 : (Initialize cfg s).2 = { s with logger := none } := by
          simp [Initialize, hb]
        have hbo : buildOk cfg = false := by simp [buildOk, hb]
        simp [applyOp, envStep, h2, hbo]
      · have h2 : (Initialize cfg s).2
            = { logger := some l, sugar := some l,
                currentEnv := cfg.Environment } := by
          simp [Initialize, hb]
        have hbo : buildOk cfg = true := by simp [buildOk, hb]
        simp [applyOp, envStep, h2, hbo]
  | setEnvOp env =>
      rcases hb : zapBuild (mkZapConfig (DefaultConfig env)) with e | l
      · have h2 : (Initialize (DefaultConfig env) s).2
            = { s with logger := none } := by
          simp [Initialize, hb]
        have hbo : buildOk (DefaultConfig env) = false := by
          simp [buildOk, hb]
        simp [applyOp, SetEnvironment, envStep, h2, hbo]
      · have h2 : (Initialize (DefaultConfig env) s).2
            = { logger := some l, sugar := some l,
                currentEnv := (DefaultConfig env).Environment } := by
          simp [Initialize, hb]
        have hbo : buildOk (DefaultConfig env) = true := by
          simp [buildOk, hb]
        simp [applyOp, SetEnvironment, envStep, h2, hbo,
          defaultConfig_environment]
  | setLevelOp level =>
      simp only [applyOp, envStep, SetLevel]
      rcases hl : s.logger with _ | l <;> simp

/-- C6: in every state reachable from any start state by any sequence of
Initialize, SetEnvironment and SetLevel calls, the recorded current
environment equals the environment of the configuration most recently and
successfully applied along the sequence (the envStep fold), so a failed
Initialize never changes it. -/
theorem c6_current_env_tracks_last_success (ops : List Op)
    (s : LoggerState) :
    (run s ops).currentEnv = ops.foldl envStep s.currentEnv := by
  induction ops generalizing s with
  | nil => rfl
  | cons op ops ih =>
      show (run (applyOp s op) ops).currentEnv
        = ops.foldl envStep (envStep s.currentEnv op)
      rw [ih (applyOp s op), applyOp_currentEnv]

end Logger
